import Mathlib

/-!
Shallow embedding of the OrthoSNAP workflow adapter (src/wf/__init__.py).

The adapter normalizes its parameters, builds an argument vector for the
external `orthosnap` executable, runs it once as a subprocess whose outcome
it never inspects, and returns the fixed local output directory wrapped as
a remote directory handle.  The embedding below mirrors the source line by
line: Python Optional values become Option, the enum becomes an inductive
type, the argument list is built by the same sequence of appends, and the
subprocess outcome is an explicit argument that the task function ignores,
exactly as the source discards the result of subprocess.run.
-/

namespace OrthosnapWf

/-- Model of a Python numeric value as passed for the support parameter
(annotated Optional[float]; callers may also pass an int, as in the
spec example 70).  A float is modelled by its decimal rendering: integer
part and fractional digit string, so that py_str matches str() on the
finite decimal values that occur (0.0, 80.0, 70, ...). -/
inductive PyNum where
  | int : Int → PyNum
  | float : Int → String → PyNum
deriving DecidableEq

/-- Python str() on a PyNum: str(70) = "70", str(0.0) = "0.0". -/
def py_str : PyNum → String
  | PyNum.int n => toString n
  | PyNum.float w frac => toString w ++ "." ++ frac

/-- Python str() applied to the Optional[int] occupancy value:
str(None) = "None", str(5) = "5". -/
def occ_token : Option Int → String
  | Option.none => "None"
  | Option.some n => toString n

/-- A platform file handle, resolved to a locally accessible path
(only local_path is read by the adapter). -/
structure LatchFile where
  local_path : String
deriving DecidableEq

/-- A platform directory handle: LatchDir(path, remote_path) pairs a local
path with a remote destination; the adapter reads remote_path of its
output_dir argument and constructs the returned handle from both fields. -/
structure LatchDir where
  path : String
  remote_path : String
deriving DecidableEq

/-- The InparalogToKeep enum of src/wf/__init__.py: six named policies
plus the none sentinel. -/
inductive InparalogToKeep where
  | none
  | shortest_seq_len
  | median_seq_len
  | longest_seq_len
  | shortest_branch_len
  | median_branch_len
  | longest_branch_len
deriving DecidableEq

/-- The .value attribute of each enum member (its string identifier). -/
def InparalogToKeep.value : InparalogToKeep → String
  | InparalogToKeep.none => "none"
  | InparalogToKeep.shortest_seq_len => "shortest_seq_len"
  | InparalogToKeep.median_seq_len => "median_seq_len"
  | InparalogToKeep.longest_seq_len => "longest_seq_len"
  | InparalogToKeep.shortest_branch_len => "shortest_branch_len"
  | InparalogToKeep.median_branch_len => "median_branch_len"
  | InparalogToKeep.longest_branch_len => "longest_branch_len"

/-- The parameters of orthosnap_task, with the Python defaults of the
signature (rooted=False, snap_trees=False, support=80.0, occupancy=5). -/
structure OrthosnapParams where
  multi_copy_gene_tree : LatchFile
  multi_copy_fasta_file : LatchFile
  output_dir : LatchDir
  inparalog_to_keep : InparalogToKeep
  rooted : Bool := false
  snap_trees : Bool := false
  support : Option PyNum := Option.some (PyNum.float 80 "0")
  occupancy : Option Int := Option.some 5
deriving DecidableEq

/-- The fixed local working directory of the adapter
(local_dir = "/root/orthosnap_output/" in the source). -/
def local_dir : String := "/root/orthosnap_output/"

/-- Lines 77-78 of the source: if inparalog_to_keep.value == "none",
replace it by InparalogToKeep.longest_seq_len. -/
def coerce_inparalog (ip : InparalogToKeep) : InparalogToKeep :=
  if ip.value = "none" then InparalogToKeep.longest_seq_len else ip

/-- Lines 80-81 of the source: if support == None, support = 0.0. -/
def coerce_support (s : Option PyNum) : PyNum :=
  match s with
  | Option.none => PyNum.float 0 "0"
  | Option.some v => v

/-- The _orthosnap_cmd argument vector built at lines 84-107 of the
source: the base list, then conditional appends of "-r" and "-st",
then the "-op" output flag with the fixed local directory. -/
def orthosnap_cmd (p : OrthosnapParams) : List String :=
  let base : List String :=
    ["orthosnap",
     "-t", p.multi_copy_gene_tree.local_path,
     "-f", p.multi_copy_fasta_file.local_path,
     "-s", py_str (coerce_support p.support),
     "-o", occ_token p.occupancy,
     "-ip", (coerce_inparalog p.inparalog_to_keep).value]
  let with_r := base ++ (if p.rooted then ["-r"] else [])
  let with_st := with_r ++ (if p.snap_trees then ["-st"] else [])
  with_st ++ ["-op", local_dir]

/-- Outcome of the external subprocess (exit code and streams).  The
source never reads any of these fields. -/
structure ProcOutcome where
  exit_code : Int
  stdout_text : String
  stderr_text : String
deriving DecidableEq

/-- Observable result of one task invocation: the list of subprocess
argument vectors issued, and the returned LatchDir handle. -/
structure TaskRun where
  calls : List (List String)
  ret : LatchDir
deriving DecidableEq

/-- orthosnap_task: build the command, run the subprocess exactly once
(its outcome argument is ignored, as the source discards the result of
subprocess.run), and return LatchDir(local_dir, output_dir.remote_path). -/
def orthosnap_task (p : OrthosnapParams) (_proc : ProcOutcome) : TaskRun :=
  { calls := [orthosnap_cmd p],
    ret := { path := local_dir, remote_path := p.output_dir.remote_path } }

lemma coerce_inparalog_ne_none (ip : InparalogToKeep) :
    coerce_inparalog ip ≠ InparalogToKeep.none := by
  cases ip <;> decide

/-- C1: when inparalog_to_keep is the none sentinel, the token following
"-ip" in the generated argument vector is exactly "longest_seq_len". -/
theorem C1_none_sentinel_gives_longest_seq_len (p : OrthosnapParams)
    (h : p.inparalog_to_keep = InparalogToKeep.none) :
    (orthosnap_cmd p).get? 9 = some "-ip" ∧
    (orthosnap_cmd p).get? 10 = some "longest_seq_len" := by
  simp [orthosnap_cmd, h, coerce_inparalog, InparalogToKeep.value]

theorem C1_witness :
    (orthosnap_cmd
      { multi_copy_gene_tree := { local_path := "/root/tree.nwk" },
        multi_copy_fasta_file := { local_path := "/root/fam.fa" },
        output_dir := { path := "", remote_path := "latch:///out" },
        inparalog_to_keep := InparalogToKeep.none }).get? 9 = some "-ip" ∧
    (orthosnap_cmd
      { multi_copy_gene_tree := { local_path := "/root/tree.nwk" },
        multi_copy_fasta_file := { local_path := "/root/fam.fa" },
        output_dir := { path := "", remote_path := "latch:///out" },
        inparalog_to_keep := InparalogToKeep.none }).get? 10 =
      some "longest_seq_len" :=
  C1_none_sentinel_gives_longest_seq_len _ rfl

/-- C2: the token after "-s" is "0.0" when support is absent/null, and is
str of the supplied value unchanged otherwise (e.g. 70 gives "70"). -/
theorem C2_support_token (p : OrthosnapParams) :
    (orthosnap_cmd p).get? 5 = some "-s" ∧
    (p.support = Option.none → (orthosnap_cmd p).get? 6 = some "0.0") ∧
    (∀ v : PyNum, p.support = Option.some v →
      (orthosnap_cmd p).get? 6 = some (py_str v)) := by
  refine ⟨by simp [orthosnap_cmd], ?_, ?_⟩
  · intro h
    simp [orthosnap_cmd, h, coerce_support, py_str]
    decide
  · intro v h
    simp [orthosnap_cmd, h, coerce_support]

theorem C2_witness :
    (orthosnap_cmd
      { multi_copy_gene_tree := { local_path := "/root/tree.nwk" },
        multi_copy_fasta_file := { local_path := "/root/fam.fa" },
        output_dir := { path := "", remote_path := "latch:///out" },
        inparalog_to_keep := InparalogToKeep.longest_seq_len,
        support := Option.none }).get? 6 = some "0.0" ∧
    (orthosnap_cmd
      { multi_copy_gene_tree := { local_path := "/root/tree.nwk" },
        multi_copy_fasta_file := { local_path := "/root/fam.fa" },
        output_dir := { path := "", remote_path := "latch:///out" },
        inparalog_to_keep := InparalogToKeep.longest_seq_len,
        support := Option.some (PyNum.int 70) }).get? 6 = some "70" :=
  ⟨(C2_support_token _).2.1 rfl, (C2_support_token _).2.2 (PyNum.int 70) rfl⟩

/-- C4: for each of the six named policies other than the none sentinel,
the token following "-ip" equals the policy string identifier verbatim. -/
theorem C4_policy_token_verbatim (p : OrthosnapParams)
    (h : p.inparalog_to_keep ≠ InparalogToKeep.none) :
    (orthosnap_cmd p).get? 9 = some "-ip" ∧
    (orthosnap_cmd p).get? 10 = some p.inparalog_to_keep.value := by
  refine ⟨by simp [orthosnap_cmd], ?_⟩
  cases hp : p.inparalog_to_keep
  · exact absurd hp h
  all_goals simp [orthosnap_cmd, hp, coerce_inparalog, InparalogToKeep.value]

theorem C4_witness :
    (orthosnap_cmd
      { multi_copy_gene_tree := { local_path := "/root/tree.nwk" },
        multi_copy_fasta_file := { local_path := "/root/fam.fa" },
        output_dir := { path := "", remote_path := "latch:///out" },
        inparalog_to_keep := InparalogToKeep.shortest_branch_len }).get? 10 =
      some "shortest_branch_len" :=
  (C4_policy_token_verbatim _ (by decide)).2

/-- C10: when occupancy is explicitly null, the token following "-o" is
the literal string "None", forwarded unchanged. -/
theorem C10_null_occupancy_token (p : OrthosnapParams)
    (h : p.occupancy = Option.none) :
    (orthosnap_cmd p).get? 7 = some "-o" ∧
    (orthosnap_cmd p).get? 8 = some "None" := by
  simp [orthosnap_cmd, h, occ_token]

theorem C10_witness :
    (orthosnap_cmd
      { multi_copy_gene_tree := { local_path := "/root/tree.nwk" },
        multi_copy_fasta_file := { local_path := "/root/fam.fa" },
        output_dir := { path := "", remote_path := "latch:///out" },
        inparalog_to_keep := InparalogToKeep.longest_seq_len,
        occupancy := Option.none }).get? 8 = some "None" :=
  (C10_null_occupancy_token _ rfl).2

/-- C5: the returned handle pairs the constant local working path
"/root/orthosnap_output/" with the remote path of output_dir. -/
theorem C5_return_handle (p : OrthosnapParams) (proc : ProcOutcome) :
    (orthosnap_task p proc).ret.path = "/root/orthosnap_output/" ∧
    (orthosnap_task p proc).ret.remote_path = p.output_dir.remote_path :=
  ⟨rfl, rfl⟩

/-- C6: the task performs exactly one subprocess attempt and its entire
observable result is independent of the subprocess outcome (exit code
and streams are never inspected, no failure is caught or retried); the
handle is returned regardless of the external outcome. -/
theorem C6_outcome_independent (p : OrthosnapParams)
    (o o' : ProcOutcome) :
    orthosnap_task p o = orthosnap_task p o' ∧
    (orthosnap_task p o).calls.length = 1 :=
  ⟨rfl, rfl⟩

/-- C7 counterexample: with occupancy left at its default (not supplied),
the generated argument vector still carries the "-o" flag with the fixed
constant token "5"; the adapter never leaves occupancy for the external
tool to compute from the taxon count. -/
theorem C7_counterexample :
    "-o" ∈ orthosnap_cmd
      { multi_copy_gene_tree := { local_path := "/root/tree.nwk" },
        multi_copy_fasta_file := { local_path := "/root/fam.fa" },
        output_dir := { path := "", remote_path := "latch:///out" },
        inparalog_to_keep := InparalogToKeep.longest_seq_len } ∧
    (orthosnap_cmd
      { multi_copy_gene_tree := { local_path := "/root/tree.nwk" },
        multi_copy_fasta_file := { local_path := "/root/fam.fa" },
        output_dir := { path := "", remote_path := "latch:///out" },
        inparalog_to_keep := InparalogToKeep.longest_seq_len }).get? 8 =
      some "5" := by
  constructor
  · decide
  · rfl

/-- C7 amended: any invocation built with the signature defaults for the
optional parameters passes "-o" followed by the fixed constant "5"; the
adapter always supplies an occupancy token, so the external tool default
of about half the taxon count is never exercised through this adapter. -/
theorem C7_amended_default_occupancy_is_five (t f : LatchFile)
    (d : LatchDir) (ip : InparalogToKeep) :
    (orthosnap_cmd
      { multi_copy_gene_tree := t,
        multi_copy_fasta_file := f,
        output_dir := d,
        inparalog_to_keep := ip }).get? 7 = some "-o" ∧
    (orthosnap_cmd
      { multi_copy_gene_tree := t,
        multi_copy_fasta_file := f,
        output_dir := d,
        inparalog_to_keep := ip }).get? 8 = some "5" := by
  refine ⟨by simp [orthosnap_cmd], ?_⟩
  simp [orthosnap_cmd, occ_token]
  decide

/-- C8 counterexample: two distinct invocations (different input files
and different subprocess outcomes) operate on and return the same local
working directory, so the local directories of distinct invocations are
not distinct. -/
theorem C8_counterexample :
    ({ multi_copy_gene_tree := { local_path := "/root/a.nwk" },
       multi_copy_fasta_file := { local_path := "/root/a.fa" },
       output_dir := { path := "", remote_path := "latch:///outA" },
       inparalog_to_keep := InparalogToKeep.longest_seq_len }
        : OrthosnapParams) ≠
      { multi_copy_gene_tree := { local_path := "/root/b.nwk" },
        multi_copy_fasta_file := { local_path := "/root/b.fa" },
        output_dir := { path := "", remote_path := "latch:///outB" },
        inparalog_to_keep := InparalogToKeep.median_seq_len } ∧
    (orthosnap_task
      { multi_copy_gene_tree := { local_path := "/root/a.nwk" },
        multi_copy_fasta_file := { local_path := "/root/a.fa" },
        output_dir := { path := "", remote_path := "latch:///outA" },
        inparalog_to_keep := InparalogToKeep.longest_seq_len }
      { exit_code := 0, stdout_text := "", stderr_text := "" }).ret.path =
    (orthosnap_task
      { multi_copy_gene_tree := { local_path := "/root/b.nwk" },
        multi_copy_fasta_file := { local_path := "/root/b.fa" },
        output_dir := { path := "", remote_path := "latch:///outB" },
        inparalog_to_keep := InparalogToKeep.median_seq_len }
      { exit_code := 1, stdout_text := "x", stderr_text := "y" }).ret.path :=
  ⟨by decide, rfl⟩

/-- C8 amended: every invocation uses one and the same fixed local
working directory "/root/orthosnap_output/"; the adapter itself provides
no per-invocation isolation (any isolation comes from the hosting
platform running each task in a fresh container). -/
theorem C8_amended_shared_local_dir (p q : OrthosnapParams)
    (o o' : ProcOutcome) :
    (orthosnap_task p o).ret.path = "/root/orthosnap_output/" ∧
    (orthosnap_task p o).ret.path = (orthosnap_task q o').ret.path :=
  ⟨rfl, rfl⟩

lemma coerce_inparalog_value_ne_r (ip : InparalogToKeep) :
    (coerce_inparalog ip).value ≠ "-r" := by
  cases ip <;> decide

lemma coerce_inparalog_value_ne_st (ip : InparalogToKeep) :
    (coerce_inparalog ip).value ≠ "-st" := by
  cases ip <;> decide

/-- C3: "-r" appears in the argument vector if and only if rooted is
true, and "-st" appears if and only if snap_trees is true.  The
hypotheses rule out the degenerate invocations in which some other
(caller-controlled) token happens to collide with one of the two flag
strings; every token the adapter itself produces is shown distinct from
them. -/
theorem C3_boolean_flags_iff (p : OrthosnapParams)
    (h1 : p.multi_copy_gene_tree.local_path ≠ "-r")
    (h2 : p.multi_copy_fasta_file.local_path ≠ "-r")
    (h3 : py_str (coerce_support p.support) ≠ "-r")
    (h4 : occ_token p.occupancy ≠ "-r")
    (h5 : p.multi_copy_gene_tree.local_path ≠ "-st")
    (h6 : p.multi_copy_fasta_file.local_path ≠ "-st")
    (h7 : py_str (coerce_support p.support) ≠ "-st")
    (h8 : occ_token p.occupancy ≠ "-st") :
    ("-r" ∈ orthosnap_cmd p ↔ p.rooted = true) ∧
    ("-st" ∈ orthosnap_cmd p ↔ p.snap_trees = true) := by
  have hvr := coerce_inparalog_value_ne_r p.inparalog_to_keep
  have hvst := coerce_inparalog_value_ne_st p.inparalog_to_keep
  cases hb : p.rooted <;> cases hc : p.snap_trees <;>
    simp_all [orthosnap_cmd, local_dir, Ne.symm h1, Ne.symm h2, Ne.symm h3,
      Ne.symm h4, Ne.symm h5, Ne.symm h6, Ne.symm h7, Ne.symm h8,
      Ne.symm hvr, Ne.symm hvst]

theorem C3_witness :
    ("-r" ∈ orthosnap_cmd
      { multi_copy_gene_tree := { local_path := "/root/tree.nwk" },
        multi_copy_fasta_file := { local_path := "/root/fam.fa" },
        output_dir := { path := "", remote_path := "latch:///out" },
        inparalog_to_keep := InparalogToKeep.longest_seq_len,
        rooted := true } ↔
      ({ multi_copy_gene_tree := { local_path := "/root/tree.nwk" },
         multi_copy_fasta_file := { local_path := "/root/fam.fa" },
         output_dir := { path := "", remote_path := "latch:///out" },
         inparalog_to_keep := InparalogToKeep.longest_seq_len,
         rooted := true } : OrthosnapParams).rooted = true) ∧
    ("-st" ∈ orthosnap_cmd
      { multi_copy_gene_tree := { local_path := "/root/tree.nwk" },
        multi_copy_fasta_file := { local_path := "/root/fam.fa" },
        output_dir := { path := "", remote_path := "latch:///out" },
        inparalog_to_keep := InparalogToKeep.longest_seq_len,
        rooted := true } ↔
      ({ multi_copy_gene_tree := { local_path := "/root/tree.nwk" },
         multi_copy_fasta_file := { local_path := "/root/fam.fa" },
         output_dir := { path := "", remote_path := "latch:///out" },
         inparalog_to_keep := InparalogToKeep.longest_seq_len,
         rooted := true } : OrthosnapParams).snap_trees = true) :=
  C3_boolean_flags_iff _ (by decide) (by decide) (by decide) (by decide)
    (by decide) (by decide) (by decide) (by decide)

/-- C9: the two adapter-local normalization steps are total functions
(in particular the policy coercion never yields the none sentinel), and
outside the two boolean flag appends they are the only decision logic:
the argument vector depends on the policy and support parameters only
through their coerced values, and on the remaining parameters directly. -/
theorem C9_normalization_only_logic (p q : OrthosnapParams)
    (hip : coerce_inparalog p.inparalog_to_keep =
      coerce_inparalog q.inparalog_to_keep)
    (hs : coerce_support p.support = coerce_support q.support)
    (ho : p.occupancy = q.occupancy)
    (ht : p.multi_copy_gene_tree = q.multi_copy_gene_tree)
    (hf : p.multi_copy_fasta_file = q.multi_copy_fasta_file)
    (hr : p.rooted = q.rooted)
    (hst : p.snap_trees = q.snap_trees) :
    orthosnap_cmd p = orthosnap_cmd q ∧
    coerce_inparalog p.inparalog_to_keep ≠ InparalogToKeep.none := by
  refine ⟨?_, coerce_inparalog_ne_none _⟩
  simp only [orthosnap_cmd, hip, hs, ho, ht, hf, hr, hst]

theorem C9_witness :
    orthosnap_cmd
      { multi_copy_gene_tree := { local_path := "/root/tree.nwk" },
        multi_copy_fasta_file := { local_path := "/root/fam.fa" },
        output_dir := { path := "", remote_path := "latch:///out" },
        inparalog_to_keep := InparalogToKeep.none,
        support := Option.none } =
    orthosnap_cmd
      { multi_copy_gene_tree := { local_path := "/root/tree.nwk" },
        multi_copy_fasta_file := { local_path := "/root/fam.fa" },
        output_dir := { path := "", remote_path := "latch:///out" },
        inparalog_to_keep := InparalogToKeep.longest_seq_len,
        support := Option.some (PyNum.float 0 "0") } ∧
    coerce_inparalog
      ({ multi_copy_gene_tree := { local_path := "/root/tree.nwk" },
         multi_copy_fasta_file := { local_path := "/root/fam.fa" },
         output_dir := { path := "", remote_path := "latch:///out" },
         inparalog_to_keep := InparalogToKeep.none,
         support := Option.none } : OrthosnapParams).inparalog_to_keep ≠
      InparalogToKeep.none :=
  C9_normalization_only_logic _ _ (by decide) rfl rfl rfl rfl rfl rfl

end OrthosnapWf
